import Mathlib

/-!
Shallow embedding of the two bridge programs of the repository:
  src/tts-engine/bridge.py     (TtsBridge namespace below)
  src/vision-engine/bridge.py  (VisionBridge namespace below)

Modelling choices, stated once:
* A parsed input line is a `Json` value (the result of `json.loads`); the raw
  text of a line is not modelled — the embedding boundary is at `json.loads`,
  whose outcome (a decode error with its message, or a value) is the input.
* Python dynamic-typing failures that the bridge code can hit outside its
  `try` blocks (attribute access on a non-dict, `len` of a non-sized value,
  `os.path.exists` of an unsupported type, list indexing out of range) are
  modelled as `PyExn` values propagating in `Except`; an exception escaping
  the per-line handler is an uncaught exception that aborts the Python loop.
* The model capability (Chatterbox / Qwen) is opaque: the outcome of the
  whole opaque part of each `try` block is an oracle `Nat → ModelOutcome`,
  indexed by how many times the `try` body has run.  `failRuntime` stands
  for a `RuntimeError` escaping the opaque code, `failOther` for any other
  exception kind.
* Filesystem existence (`os.path.exists`) is a parameter `Fs`; integer
  arguments to `exists` are Python file-descriptor checks (`fdExists`).
* JSON numbers are modelled as integers; the float-valued option defaults
  (0.5, 0.5, 0.8) flow unexamined into the opaque model call and are not
  represented.  The audio `duration` field is likewise opaque and carried
  by the model outcome already rounded.
-/

/-- A JSON value as produced by `json.loads` on one input line. -/
inductive Json where
  | null : Json
  | bool : Bool → Json
  | num : Int → Json
  | str : String → Json
  | arr : List Json → Json
  | obj : List (String × Json) → Json

/-- Python truthiness of a value decoded from JSON. -/
def Json.truthy : Json → Bool
  | .null => false
  | .bool b => b
  | .num n => n != 0
  | .str s => !s.isEmpty
  | .arr xs => !xs.isEmpty
  | .obj kvs => !kvs.isEmpty

/-- Whether the value is a JSON object (a Python dict after `json.loads`). -/
def Json.isObj : Json → Bool
  | .obj _ => true
  | _ => false

/-- Exceptions the bridge code itself can raise outside its `try` blocks. -/
inductive PyExn where
  | attributeError : PyExn
  | typeError : PyExn
  | indexError : PyExn

/-- Python `d.get(key)` (default `None` handled by callers through
`Option.getD`): on a dict, an association-list lookup; on any other value an
`AttributeError` is raised at the attribute access.  `json.loads` never
produces duplicate keys, so first-match lookup is the dict lookup. -/
def dictGet (j : Json) (key : String) : Except PyExn (Option Json) :=
  match j with
  | .obj kvs => .ok (kvs.lookup key)
  | _ => .error .attributeError

/-- Field lookup on a response object (used only in theorem statements). -/
def jsonLookup (j : Json) (key : String) : Option Json :=
  match j with
  | .obj kvs => kvs.lookup key
  | _ => none

/-- Python `len` of a value decoded from JSON. -/
def pyLen : Json → Except PyExn Nat
  | .str s => .ok s.length
  | .arr xs => .ok xs.length
  | .obj kvs => .ok kvs.length
  | _ => .error .typeError

/-- Python `x == "lit"` where `x` was decoded from JSON: only an equal
string compares equal. -/
def jsonEqStr (j : Json) (lit : String) : Bool :=
  match j with
  | .str s => s == lit
  | _ => false

mutual

/-- Python `str()` of a value decoded from JSON, as used by the f-strings in
the bridges; `top = false` renders the `repr` used inside containers. -/
def pyStrJ (top : Bool) : Json → String
  | .null => "None"
  | .bool b => if b then "True" else "False"
  | .num n => toString n
  | .str s => if top then s else "\x27" ++ s ++ "\x27"
  | .arr xs => "[" ++ pyStrL xs ++ "]"
  | .obj kvs => "\x7b" ++ pyStrO kvs ++ "\x7d"

/-- Comma-joined `repr` of list elements. -/
def pyStrL : List Json → String
  | [] => ""
  | [j] => pyStrJ false j
  | j :: rest => pyStrJ false j ++ ", " ++ pyStrL rest

/-- Comma-joined `repr` of dict entries. -/
def pyStrO : List (String × Json) → String
  | [] => ""
  | [(k, v)] => "\x27" ++ k ++ "\x27: " ++ pyStrJ false v
  | (k, v) :: rest => "\x27" ++ k ++ "\x27: " ++ pyStrJ false v ++ ", " ++ pyStrO rest

end

/-- Python `str()` as an f-string renders it. -/
def pyStr (j : Json) : String := pyStrJ true j

/-- Whether the first character list leads the second one. -/
def leadsWith : List Char → List Char → Bool
  | [], _ => true
  | _ :: _, [] => false
  | a :: as, b :: bs => a == b && leadsWith as bs

/-- Boolean infix test on character lists. -/
def isInfixOfL (needle : List Char) : List Char → Bool
  | [] => needle.isEmpty
  | c :: rest => leadsWith needle (c :: rest) || isInfixOfL needle rest

/-- The out-of-memory test of both bridges:
`"out of memory" in str(e).lower()` (ASCII lowering suffices here). -/
def containsOOM (msg : String) : Bool :=
  isInfixOfL "out of memory".data (msg.data.map Char.toLower)

/-- The filesystem as the bridges observe it through `os.path.exists`. -/
structure Fs where
  pathExists : String → Bool
  fdExists : Int → Bool

/-- Python `os.path.exists` on a value decoded from JSON: strings are path
checks, integers (and bools, which are ints) are file-descriptor checks, and
other types raise `TypeError` out of `os.stat` (uncaught by `exists`, which
only swallows `OSError` and `ValueError`). -/
def os_path_exists (fs : Fs) : Json → Except PyExn Bool
  | .str s => .ok (fs.pathExists s)
  | .num n => .ok (fs.fdExists n)
  | .bool b => .ok (fs.fdExists (if b then 1 else 0))
  | _ => .error .typeError

/-- An error response that carries an id, as built inside `generate` and
`caption`: field order follows the Python dict literals. -/
def errResp (req_id : Json) (code msg : String) : Json :=
  .obj [("type", .str "error"), ("id", req_id), ("code", .str code), ("message", .str msg)]

/-- An error response built in the dispatch loops, which carries no id. -/
def errNoId (code msg : String) : Json :=
  .obj [("type", .str "error"), ("code", .str code), ("message", .str msg)]

/-- The ready line both bridges emit after a successful model load. -/
def readyJson : Json := .obj [("type", .str "ready")]

/-- Dispatch-loop mutable state: the artifact counter (`request_counter`)
and how many times the opaque `try` body has run (indexes the oracle). -/
structure BridgeSt where
  requestCounter : Nat
  calls : Nat

/-- One line read from stdin, after `line.strip()` and `json.loads`:
whitespace-only, a JSON decode failure with its diagnostic, or a value. -/
inductive InputLine where
  | blank : InputLine
  | malformed : String → InputLine
  | parsed : Json → InputLine

/-- Observable effects of a run: temp-directory acquire/release and response
lines written to stdout (stderr logging is not observable protocol). -/
inductive Event where
  | acquireTempDir : Event
  | releaseTempDir : Event
  | sendLine : Json → Event

/-- Outcome of handling one input line inside the `for` loop. -/
inductive Step where
  | cont : List Event → BridgeSt → Step
  | stop : Step
  | crash : PyExn → Step

/-- How the `for` loop over stdin ended. -/
inductive LoopEnd where
  | finished : LoopEnd
  | crashed : PyExn → LoopEnd

/-- Outcome of `load_model()`: success, or an exception with its message. -/
inductive InitOutcome where
  | ok : InitOutcome
  | fail : String → InitOutcome

namespace TtsBridge

/-- Outcome of the opaque part of the `try` block in `generate`: the model
call plus `torchaudio.save`.  On success the bridge only inspects the wav
through `wav.shape[1] / sample_rate`, so the outcome carries the resulting
(already rounded) duration opaquely. -/
inductive ModelOutcome where
  | success : Int → ModelOutcome
  | failRuntime : String → ModelOutcome
  | failOther : String → ModelOutcome

/-- `f"tts_{n:04d}"` padding of the request counter. -/
def pad4 (n : Nat) : String :=
  let s := toString n
  if s.length < 4 then String.mk (List.replicate (4 - s.length) '0') ++ s else s

/-- src/tts-engine/bridge.py, `generate(request)` (lines 66-131).
`request.get` on a non-dict raises `AttributeError` at the first access;
likewise `options.get` (lines 86-88) when a supplied `options` is not a
dict.  `request_counter` is incremented only when the opaque `try` body
succeeds (a `ta.save` failure after the increment is folded into the
failure outcomes).  The oracle index advances whenever the `try` body runs. -/
def generate (fs : Fs) (temp_dir : String) (models : Nat → ModelOutcome)
    (st : BridgeSt) (request : Json) : Except PyExn (Json × BridgeSt) :=
  match request with
  | .obj kvs =>
    let req_id := (kvs.lookup "id").getD (.str ("req_" ++ toString st.requestCounter))
    let text := (kvs.lookup "text").getD (.str "")
    let voice_sample := (kvs.lookup "voice_sample").getD .null
    let options := (kvs.lookup "options").getD (.obj [])
    if text.truthy = false then
      .ok (errResp req_id "INVALID_TEXT" "Text is empty", st)
    else
      match pyLen text with
      | .error e => .error e
      | .ok n =>
        if n > 10000 then
          .ok (errResp req_id "INVALID_TEXT" "Text too long (max 10000 chars)", st)
        else
          match (if voice_sample.truthy then (os_path_exists fs voice_sample).map some
                 else .ok none : Except PyExn (Option Bool)) with
          | .error e => .error e
          | .ok (some false) =>
            .ok (errResp req_id "VOICE_NOT_FOUND"
                  ("Voice sample not found: " ++ pyStr voice_sample), st)
          | .ok _ =>
            match options with
            | .obj _ =>
              match models st.calls with
              | .success duration =>
                let c := st.requestCounter + 1
                let output_path := temp_dir ++ "/tts_" ++ pad4 c ++ ".wav"
                .ok (.obj [("type", .str "audio"), ("id", req_id),
                           ("path", .str output_path), ("duration", .num duration)],
                     ⟨c, st.calls + 1⟩)
              | .failRuntime msg =>
                if containsOOM msg then
                  .ok (errResp req_id "OUT_OF_MEMORY" msg, ⟨st.requestCounter, st.calls + 1⟩)
                else
                  .ok (errResp req_id "ENGINE_ERROR" msg, ⟨st.requestCounter, st.calls + 1⟩)
              | .failOther msg =>
                .ok (errResp req_id "ENGINE_ERROR" msg, ⟨st.requestCounter, st.calls + 1⟩)
            | _ => .error .attributeError
  | _ => .error .attributeError

/-- One iteration of the `for line in sys.stdin` loop of `main`
(lines 153-175): skip blank lines, report decode failures, read the `type`
discriminator (an uncaught `AttributeError` on non-dict lines), break on
shutdown, dispatch `generate`, or report an unknown type. -/
def step (fs : Fs) (temp_dir : String) (models : Nat → ModelOutcome)
    (st : BridgeSt) (line : InputLine) : Step :=
  match line with
  | .blank => .cont [] st
  | .malformed msg =>
    .cont [.sendLine (errNoId "INVALID_REQUEST" ("Invalid JSON: " ++ msg))] st
  | .parsed request =>
    match dictGet request "type" with
    | .error e => .crash e
    | .ok rt =>
      let req_type := rt.getD .null
      if jsonEqStr req_type "shutdown" then .stop
      else if jsonEqStr req_type "generate" then
        match generate fs temp_dir models st request with
        | .ok (response, st') => .cont [.sendLine response] st'
        | .error e => .crash e
      else
        .cont [.sendLine (errNoId "INVALID_REQUEST"
                ("Unknown request type: " ++ pyStr req_type))] st

/-- The whole `for` loop over the (already framed) input lines. -/
def loop (fs : Fs) (temp_dir : String) (models : Nat → ModelOutcome) :
    BridgeSt → List InputLine → List Event × LoopEnd
  | _, [] => ([], .finished)
  | st, line :: rest =>
    match step fs temp_dir models st line with
    | .cont out st' =>
      let p := loop fs temp_dir models st' rest
      (out ++ p.1, p.2)
    | .stop => ([], .finished)
    | .crash e => ([], .crashed e)

/-- src/tts-engine/bridge.py, `main()` (lines 134-182), with
`sys.exit(main())`: the temp directory is created first; a `load_model`
failure sends one init error and returns 1 without any cleanup; otherwise
ready is sent, the loop runs, and `shutil.rmtree` runs only when the loop
ends without an uncaught exception.  The exit code is `none` when an
uncaught exception aborts the process (Python then exits abnormally and the
cleanup lines are never reached). -/
def main (fs : Fs) (temp_dir : String) (init : InitOutcome)
    (models : Nat → ModelOutcome) (input : List InputLine) :
    List Event × Option Int :=
  match init with
  | .fail msg =>
    ([.acquireTempDir,
      .sendLine (errResp (.str "init") "ENGINE_ERROR" ("Failed to load model: " ++ msg))],
     some 1)
  | .ok =>
    let p := loop fs temp_dir models ⟨0, 0⟩ input
    match p.2 with
    | .finished =>
      ([.acquireTempDir, .sendLine readyJson] ++ p.1 ++ [.releaseTempDir], some 0)
    | .crashed _ =>
      ([.acquireTempDir, .sendLine readyJson] ++ p.1, none)

end TtsBridge

namespace VisionBridge

/-- Outcome of the opaque part of the `try` block in `caption`: image load,
prompt processing and the model call, up to the decoded `description`
string.  The caption assembly after it (`format_position` and the f-string)
is bridge code and modelled explicitly. -/
inductive ModelOutcome where
  | success : String → ModelOutcome
  | failRuntime : String → ModelOutcome
  | failOther : String → ModelOutcome

/-- src/vision-engine/bridge.py, `position_map` (lines 74-80). -/
def position_map : List (String × String) :=
  [("top", "near the top of the page"),
   ("middle", "in the middle of the page"),
   ("bottom", "near the bottom of the page"),
   ("full-page", "taking the full page"),
   ("inline", "inline with the text")]

/-- src/vision-engine/bridge.py, `ordinals` (line 85). -/
def ordinals : List String :=
  ["First", "Second", "Third", "Fourth", "Fifth",
   "Sixth", "Seventh", "Eighth", "Ninth", "Tenth"]

/-- `position_map.get(position, "on the page")`: a Python dict with string
keys returns the default for any other hashable key and raises `TypeError`
for unhashable keys (lists, dicts). -/
def posMapGet (position : Json) : Except PyExn String :=
  match position with
  | .str s => .ok ((position_map.lookup s).getD "on the page")
  | .arr _ => .error .typeError
  | .obj _ => .error .typeError
  | _ => .ok "on the page"

/-- The integer Python uses for `image_index` in `<` and list indexing:
bools are ints; every other non-int operand raises `TypeError`. -/
def pyIntOf : Json → Except PyExn Int
  | .num n => .ok n
  | .bool b => .ok (if b then 1 else 0)
  | _ => .error .typeError

/-- Python list indexing `xs[i]` with negative-index wraparound and
`IndexError` out of range. -/
def pyListIndex (xs : List String) (i : Int) : Except PyExn String :=
  if 0 ≤ i ∧ i < xs.length then .ok (xs.getD i.toNat "")
  else if -(xs.length : Int) ≤ i ∧ i < 0 then .ok (xs.getD (i + xs.length).toNat "")
  else .error .indexError

/-- src/vision-engine/bridge.py, `format_position` (lines 72-94), over the
raw context values (it is called inside the `try` block of `caption`, so
its exceptions are classified there, not propagated to the loop). -/
def format_position (position image_index page_number : Json) :
    Except PyExn String :=
  match posMapGet position with
  | .error e => .error e
  | .ok pos_desc =>
    match pyIntOf image_index with
    | .error e => .error e
    | .ok i =>
      match (if i < (ordinals.length : Int) then pyListIndex ordinals i
             else .ok ("Image " ++ toString (i + 1)) : Except PyExn String) with
      | .error e => .error e
      | .ok ordinal =>
        if page_number.truthy then
          .ok (ordinal ++ " image on page " ++ pyStr page_number ++ ", " ++ pos_desc)
        else
          .ok (ordinal ++ " image, " ++ pos_desc)

/-- src/vision-engine/bridge.py, `caption(request)` (lines 97-193).
`request.get` on a non-dict raises `AttributeError` at the first access,
and so does `context.get` (lines 106-108, before any validation) when a
supplied `context` is not a dict.  `request_counter` is incremented only on
the fully successful path (line 181, after `format_position`). -/
def caption (fs : Fs) (models : Nat → ModelOutcome)
    (st : BridgeSt) (request : Json) : Except PyExn (Json × BridgeSt) :=
  match request with
  | .obj kvs =>
    let req_id := (kvs.lookup "id").getD (.str ("req_" ++ toString st.requestCounter))
    let image_path := (kvs.lookup "image_path").getD .null
    match (kvs.lookup "context").getD (.obj []) with
    | .obj cvs =>
      let page_number := (cvs.lookup "page_number").getD .null
      let position := (cvs.lookup "position").getD (.str "middle")
      let image_index := (cvs.lookup "image_index").getD (.num 0)
      if image_path.truthy = false then
        .ok (errResp req_id "INVALID_REQUEST" "image_path is required", st)
      else
        match os_path_exists fs image_path with
        | .error e => .error e
        | .ok false =>
          .ok (errResp req_id "IMAGE_NOT_FOUND"
                ("Image not found: " ++ pyStr image_path), st)
        | .ok true =>
          match models st.calls with
          | .success description =>
            match format_position position image_index page_number with
            | .ok position_pfx =>
              .ok (.obj [("type", .str "caption"), ("id", req_id),
                         ("caption", .str (position_pfx ++ ": " ++ description))],
                   ⟨st.requestCounter + 1, st.calls + 1⟩)
            | .error _ =>
              -- an exception out of format_position is caught by the generic
              -- `except Exception` clause and reported with `str(e)`; the
              -- runtime-generated message text is not modelled
              .ok (errResp req_id "ENGINE_ERROR" "format_position failed",
                   ⟨st.requestCounter, st.calls + 1⟩)
          | .failRuntime msg =>
            if containsOOM msg then
              .ok (errResp req_id "OUT_OF_MEMORY" msg, ⟨st.requestCounter, st.calls + 1⟩)
            else
              .ok (errResp req_id "ENGINE_ERROR" msg, ⟨st.requestCounter, st.calls + 1⟩)
          | .failOther msg =>
            .ok (errResp req_id "ENGINE_ERROR" msg, ⟨st.requestCounter, st.calls + 1⟩)
    | _ => .error .attributeError
  | _ => .error .attributeError

/-- One iteration of the `for line in sys.stdin` loop of `main`
(lines 209-231), mirroring the TTS loop with the `caption` branch. -/
def step (fs : Fs) (models : Nat → ModelOutcome)
    (st : BridgeSt) (line : InputLine) : Step :=
  match line with
  | .blank => .cont [] st
  | .malformed msg =>
    .cont [.sendLine (errNoId "INVALID_REQUEST" ("Invalid JSON: " ++ msg))] st
  | .parsed request =>
    match dictGet request "type" with
    | .error e => .crash e
    | .ok rt =>
      let req_type := rt.getD .null
      if jsonEqStr req_type "shutdown" then .stop
      else if jsonEqStr req_type "caption" then
        match caption fs models st request with
        | .ok (response, st') => .cont [.sendLine response] st'
        | .error e => .crash e
      else
        .cont [.sendLine (errNoId "INVALID_REQUEST"
                ("Unknown request type: " ++ pyStr req_type))] st

/-- The whole `for` loop over the (already framed) input lines. -/
def loop (fs : Fs) (models : Nat → ModelOutcome) :
    BridgeSt → List InputLine → List Event × LoopEnd
  | _, [] => ([], .finished)
  | st, line :: rest =>
    match step fs models st line with
    | .cont out st' =>
      let p := loop fs models st' rest
      (out ++ p.1, p.2)
    | .stop => ([], .finished)
    | .crash e => ([], .crashed e)

/-- src/vision-engine/bridge.py, `main()` (lines 196-234), with
`sys.exit(main())`: no temporary directory is ever created or removed in
this bridge.  A `load_model` failure sends one init error and returns 1;
otherwise ready is sent and the loop runs; the exit code is `none` when an
uncaught exception aborts the process. -/
def main (fs : Fs) (init : InitOutcome) (models : Nat → ModelOutcome)
    (input : List InputLine) : List Event × Option Int :=
  match init with
  | .fail msg =>
    ([.sendLine (errResp (.str "init") "ENGINE_ERROR" ("Failed to load model: " ++ msg))],
     some 1)
  | .ok =>
    let p := loop fs models ⟨0, 0⟩ input
    match p.2 with
    | .finished => ([.sendLine readyJson] ++ p.1, some 0)
    | .crashed _ => ([.sendLine readyJson] ++ p.1, none)

end VisionBridge

/-- Recognizer for the acquire event (used in trace statements). -/
def isAcquireEv : Event → Bool
  | .acquireTempDir => true
  | _ => false

/-- Recognizer for the release event (used in trace statements). -/
def isReleaseEv : Event → Bool
  | .releaseTempDir => true
  | _ => false

/-- Whether a response line is exactly the one-field ready object. -/
def isReadyJson : Json → Bool
  | .obj [(k, .str v)] => k == "type" && v == "ready"
  | _ => false

/-- Whether an event is a ready line written to stdout. -/
def isReadyEv : Event → Bool
  | .sendLine j => isReadyJson j
  | _ => false

/-- The stdout lines of a trace, in order. -/
def outputs (evs : List Event) : List Json :=
  evs.filterMap (fun e => match e with | .sendLine j => some j | _ => none)

/-- Whether a decoded line would take the shutdown branch of the loops:
its `get("type")` succeeds and compares equal to the string `shutdown`. -/
def isShutdownJson (j : Json) : Bool :=
  match dictGet j "type" with
  | .ok t => jsonEqStr (t.getD .null) "shutdown"
  | .error _ => false

/-- A generate request with an id, a text and an optional voice sample. -/
def genReqJson (idv text : String) (vs : Option String) : Json :=
  .obj ([("type", Json.str "generate"), ("id", Json.str idv), ("text", Json.str text)]
        ++ (match vs with | some s => [("voice_sample", Json.str s)] | none => []))

/-- A caption request with an id, an optional `image_path` value and an
optional `context` value. -/
def capReqJson (idv : String) (ip : Option Json) (ctx : Option Json) : Json :=
  .obj ([("type", Json.str "caption"), ("id", Json.str idv)]
        ++ (match ip with | some v => [("image_path", v)] | none => [])
        ++ (match ctx with | some c => [("context", c)] | none => []))

/-- A caption context with a position, an image index and an optional page
number. -/
def ctxOf (p : String) (i : Int) (pn : Option Int) : Json :=
  .obj ((match pn with | some n => [("page_number", Json.num n)] | none => [])
        ++ [("position", Json.str p), ("image_index", Json.num i)])

/-- The caption prefix as claim C10 words it: ordinal words First..Tenth
for image indices 0..9 and the form `Image (i+1)` for larger indices, the
default description `on the page` for an unrecognized position, and the
page mention present exactly when the page number is supplied and nonzero
(a truthiness check, not a presence check). -/
def claimedPfx (p : String) (i : Int) (pn : Option Int) : String :=
  let ordinal := if i < 10 then VisionBridge.ordinals.getD i.toNat ""
                 else "Image " ++ toString (i + 1)
  let pos_desc := (VisionBridge.position_map.lookup p).getD "on the page"
  match pn with
  | some n =>
    if n = 0 then ordinal ++ " image, " ++ pos_desc
    else ordinal ++ " image on page " ++ toString n ++ ", " ++ pos_desc
  | none => ordinal ++ " image, " ++ pos_desc

/-- A filesystem on which no path and no descriptor exists. -/
def fs0 : Fs := ⟨fun _ => false, fun _ => false⟩

/-- A filesystem on which every path exists. -/
def fsAll : Fs := ⟨fun _ => true, fun _ => false⟩

/-- A TTS model oracle that always fails with a generic exception. -/
def mT0 : Nat → TtsBridge.ModelOutcome := fun _ => .failOther "model failed"

/-- A TTS model oracle that always succeeds. -/
def mTs : Nat → TtsBridge.ModelOutcome := fun _ => .success 2

/-- A vision model oracle that always fails with a generic exception. -/
def mV0 : Nat → VisionBridge.ModelOutcome := fun _ => .failOther "model failed"

/-- A vision model oracle that always answers with a fixed description. -/
def mVs : Nat → VisionBridge.ModelOutcome := fun _ => .success "a chart"
theorem ttsGenerate_ok_sendShape (fs : Fs) (td : String)
    (models : Nat → TtsBridge.ModelOutcome) (st : BridgeSt) (req resp : Json)
    (st' : BridgeSt) (h : TtsBridge.generate fs td models st req = .ok (resp, st')) :
    isReadyJson resp = false := by
  cases req <;> simp only [TtsBridge.generate] at h <;>
    (try (repeat' split at h)) <;> (try simp_all) <;>
    (rcases h with ⟨h1, h2⟩; subst h1; rfl)
theorem visionCaption_ok_sendShape (fs : Fs)
    (models : Nat → VisionBridge.ModelOutcome) (st : BridgeSt) (req resp : Json)
    (st' : BridgeSt) (h : VisionBridge.caption fs models st req = .ok (resp, st')) :
    isReadyJson resp = false := by
  cases req <;> simp only [VisionBridge.caption] at h <;>
    (try (repeat' split at h)) <;> (try simp_all) <;>
    (rcases h with ⟨h1, h2⟩; subst h1; rfl)

theorem ttsStep_out_shape (fs : Fs) (td : String)
    (models : Nat → TtsBridge.ModelOutcome) (st : BridgeSt) (line : InputLine)
    (out : List Event) (st'' : BridgeSt)
    (h : TtsBridge.step fs td models st line = .cont out st'') :
    out = [] ∨ ∃ j, out = [Event.sendLine j] ∧ isReadyJson j = false := by
  cases line <;> simp only [TtsBridge.step] at h <;> (try (repeat' split at h)) <;>
    cases h <;>
    first
      | exact Or.inl rfl
      | exact Or.inr ⟨_, rfl, rfl⟩
      | exact Or.inr ⟨_, rfl, ttsGenerate_ok_sendShape _ _ _ _ _ _ _ (by assumption)⟩

theorem visionStep_out_shape (fs : Fs)
    (models : Nat → VisionBridge.ModelOutcome) (st : BridgeSt) (line : InputLine)
    (out : List Event) (st'' : BridgeSt)
    (h : VisionBridge.step fs models st line = .cont out st'') :
    out = [] ∨ ∃ j, out = [Event.sendLine j] ∧ isReadyJson j = false := by
  cases line <;> simp only [VisionBridge.step] at h <;> (try (repeat' split at h)) <;>
    cases h <;>
    first
      | exact Or.inl rfl
      | exact Or.inr ⟨_, rfl, rfl⟩
      | exact Or.inr ⟨_, rfl, visionCaption_ok_sendShape _ _ _ _ _ _ (by assumption)⟩

theorem ttsLoop_out_shape (fs : Fs) (td : String)
    (models : Nat → TtsBridge.ModelOutcome) :
    ∀ (input : List InputLine) (st : BridgeSt),
      ∀ e ∈ (TtsBridge.loop fs td models st input).1,
        ∃ j, e = Event.sendLine j ∧ isReadyJson j = false := by
  intro input
  induction input with
  | nil => intro st e he; simp [TtsBridge.loop] at he
  | cons l rest ih =>
    intro st e he
    simp only [TtsBridge.loop] at he
    cases hs : TtsBridge.step fs td models st l with
    | cont out st' =>
      rw [hs] at he
      simp only [List.mem_append] at he
      rcases he with h1 | h2
      · rcases ttsStep_out_shape fs td models st l out st' hs with h0 | ⟨j, hj, hr⟩
        · subst h0; simp at h1
        · subst hj; simp at h1; exact ⟨j, h1, hr⟩
      · exact ih st' e h2
    | stop => rw [hs] at he; simp at he
    | crash ex => rw [hs] at he; simp at he

theorem visionLoop_out_shape (fs : Fs)
    (models : Nat → VisionBridge.ModelOutcome) :
    ∀ (input : List InputLine) (st : BridgeSt),
      ∀ e ∈ (VisionBridge.loop fs models st input).1,
        ∃ j, e = Event.sendLine j ∧ isReadyJson j = false := by
  intro input
  induction input with
  | nil => intro st e he; simp [VisionBridge.loop] at he
  | cons l rest ih =>
    intro st e he
    simp only [VisionBridge.loop] at he
    cases hs : VisionBridge.step fs models st l with
    | cont out st' =>
      rw [hs] at he
      simp only [List.mem_append] at he
      rcases he with h1 | h2
      · rcases visionStep_out_shape fs models st l out st' hs with h0 | ⟨j, hj, hr⟩
        · subst h0; simp at h1
        · subst hj; simp at h1; exact ⟨j, h1, hr⟩
      · exact ih st' e h2
    | stop => rw [hs] at he; simp at he
    | crash ex => rw [hs] at he; simp at he

theorem ttsLoop_no_ready (fs : Fs) (td : String)
    (models : Nat → TtsBridge.ModelOutcome) (input : List InputLine) (st : BridgeSt) :
    ((TtsBridge.loop fs td models st input).1).countP isReadyEv = 0 :=
  List.countP_eq_zero.mpr (fun e he => by
    rcases ttsLoop_out_shape fs td models input st e he with ⟨j, rfl, hr⟩
    simp [isReadyEv, hr])

theorem ttsLoop_no_acquire (fs : Fs) (td : String)
    (models : Nat → TtsBridge.ModelOutcome) (input : List InputLine) (st : BridgeSt) :
    ((TtsBridge.loop fs td models st input).1).countP isAcquireEv = 0 :=
  List.countP_eq_zero.mpr (fun e he => by
    rcases ttsLoop_out_shape fs td models input st e he with ⟨j, rfl, hr⟩
    simp [isAcquireEv])

theorem ttsLoop_no_release (fs : Fs) (td : String)
    (models : Nat → TtsBridge.ModelOutcome) (input : List InputLine) (st : BridgeSt) :
    ((TtsBridge.loop fs td models st input).1).countP isReleaseEv = 0 :=
  List.countP_eq_zero.mpr (fun e he => by
    rcases ttsLoop_out_shape fs td models input st e he with ⟨j, rfl, hr⟩
    simp [isReleaseEv])

theorem visionLoop_no_ready (fs : Fs)
    (models : Nat → VisionBridge.ModelOutcome) (input : List InputLine) (st : BridgeSt) :
    ((VisionBridge.loop fs models st input).1).countP isReadyEv = 0 :=
  List.countP_eq_zero.mpr (fun e he => by
    rcases visionLoop_out_shape fs models input st e he with ⟨j, rfl, hr⟩
    simp [isReadyEv, hr])

theorem visionLoop_no_acquire (fs : Fs)
    (models : Nat → VisionBridge.ModelOutcome) (input : List InputLine) (st : BridgeSt) :
    ((VisionBridge.loop fs models st input).1).countP isAcquireEv = 0 :=
  List.countP_eq_zero.mpr (fun e he => by
    rcases visionLoop_out_shape fs models input st e he with ⟨j, rfl, hr⟩
    simp [isAcquireEv])

theorem visionLoop_no_release (fs : Fs)
    (models : Nat → VisionBridge.ModelOutcome) (input : List InputLine) (st : BridgeSt) :
    ((VisionBridge.loop fs models st input).1).countP isReleaseEv = 0 :=
  List.countP_eq_zero.mpr (fun e he => by
    rcases visionLoop_out_shape fs models input st e he with ⟨j, rfl, hr⟩
    simp [isReleaseEv])
theorem ttsStep_shutdown (fs : Fs) (td : String)
    (models : Nat → TtsBridge.ModelOutcome) (st : BridgeSt) (j : Json)
    (hj : isShutdownJson j = true) :
    TtsBridge.step fs td models st (.parsed j) = .stop := by
  unfold isShutdownJson at hj
  simp only [TtsBridge.step]
  cases hd : dictGet j "type" with
  | error e => rw [hd] at hj; simp at hj
  | ok t => rw [hd] at hj; simp at hj; simp [hj]

theorem visionStep_shutdown (fs : Fs)
    (models : Nat → VisionBridge.ModelOutcome) (st : BridgeSt) (j : Json)
    (hj : isShutdownJson j = true) :
    VisionBridge.step fs models st (.parsed j) = .stop := by
  unfold isShutdownJson at hj
  simp only [VisionBridge.step]
  cases hd : dictGet j "type" with
  | error e => rw [hd] at hj; simp at hj
  | ok t => rw [hd] at hj; simp at hj; simp [hj]

theorem ttsLoop_shutdown_append (fs : Fs) (td : String)
    (models : Nat → TtsBridge.ModelOutcome) (j : Json)
    (hj : isShutdownJson j = true) :
    ∀ (input : List InputLine) (st : BridgeSt) (post : List InputLine),
      TtsBridge.loop fs td models st (input ++ .parsed j :: post)
        = TtsBridge.loop fs td models st input := by
  intro input
  induction input with
  | nil =>
    intro st post
    simp only [List.nil_append, TtsBridge.loop, ttsStep_shutdown fs td models st j hj]
  | cons l rest ih =>
    intro st post
    simp only [List.cons_append, TtsBridge.loop]
    cases hs : TtsBridge.step fs td models st l with
    | cont out st' => simp [ih st' post]
    | stop => rfl
    | crash e => rfl

theorem visionLoop_shutdown_append (fs : Fs)
    (models : Nat → VisionBridge.ModelOutcome) (j : Json)
    (hj : isShutdownJson j = true) :
    ∀ (input : List InputLine) (st : BridgeSt) (post : List InputLine),
      VisionBridge.loop fs models st (input ++ .parsed j :: post)
        = VisionBridge.loop fs models st input := by
  intro input
  induction input with
  | nil =>
    intro st post
    simp only [List.nil_append, VisionBridge.loop, visionStep_shutdown fs models st j hj]
  | cons l rest ih =>
    intro st post
    simp only [List.cons_append, VisionBridge.loop]
    cases hs : VisionBridge.step fs models st l with
    | cont out st' => simp [ih st' post]
    | stop => rfl
    | crash e => rfl

/-- C9: a line whose decoded type is `shutdown` takes the break branch and
produces no response of its own, everything after it is never read (the
whole run is identical to the run without the shutdown line and its
successors), and in particular end of stream is handled identically to an
explicit shutdown (instantiate `post := []`): appending a shutdown line to
any input changes nothing.  Holds for both bridges. -/
theorem claim9_shutdown_drains (j : Json) (hj : isShutdownJson j = true) :
    (∀ (fs : Fs) (td : String) (models : Nat → TtsBridge.ModelOutcome) (st : BridgeSt),
       TtsBridge.step fs td models st (.parsed j) = .stop)
    ∧ (∀ (fs : Fs) (td : String) (init : InitOutcome)
         (models : Nat → TtsBridge.ModelOutcome) (input post : List InputLine),
       TtsBridge.main fs td init models (input ++ .parsed j :: post)
         = TtsBridge.main fs td init models input)
    ∧ (∀ (fs : Fs) (models : Nat → VisionBridge.ModelOutcome) (st : BridgeSt),
       VisionBridge.step fs models st (.parsed j) = .stop)
    ∧ (∀ (fs : Fs) (init : InitOutcome)
         (models : Nat → VisionBridge.ModelOutcome) (input post : List InputLine),
       VisionBridge.main fs init models (input ++ .parsed j :: post)
         = VisionBridge.main fs init models input) := by
  refine ⟨fun fs td models st => ttsStep_shutdown fs td models st j hj, ?_,
          fun fs models st => visionStep_shutdown fs models st j hj, ?_⟩
  · intro fs td init models input post
    cases init with
    | fail msg => rfl
    | ok => simp only [TtsBridge.main, ttsLoop_shutdown_append fs td models j hj]
  · intro fs init models input post
    cases init with
    | fail msg => rfl
    | ok => simp only [VisionBridge.main, visionLoop_shutdown_append fs models j hj]

/-- Witness for C9 at a concrete shutdown line: with a trailing malformed
line after the shutdown, the run equals the run on the empty input. -/
theorem claim9_witness :
    TtsBridge.main fs0 "/tmp/t" .ok mT0
        ([] ++ .parsed (.obj [("type", .str "shutdown")]) :: [.malformed "boom"])
      = TtsBridge.main fs0 "/tmp/t" .ok mT0 [] :=
  (claim9_shutdown_drains (.obj [("type", .str "shutdown")]) rfl).2.1
    fs0 "/tmp/t" .ok mT0 [] [.malformed "boom"]
/-- C7: when model construction fails during initialization, each bridge
writes exactly one stdout line — the error with id `init` and code
`ENGINE_ERROR` — never emits a ready line, returns exit code 1 (non-zero),
and reads no input (the result does not depend on `input` at all). -/
theorem claim7_init_failure (fs : Fs) (td : String) (msg : String)
    (modelsT : Nat → TtsBridge.ModelOutcome)
    (modelsV : Nat → VisionBridge.ModelOutcome) (input : List InputLine) :
    TtsBridge.main fs td (.fail msg) modelsT input
      = ([.acquireTempDir,
          .sendLine (errResp (.str "init") "ENGINE_ERROR" ("Failed to load model: " ++ msg))],
         some 1)
    ∧ outputs (TtsBridge.main fs td (.fail msg) modelsT input).1
      = [errResp (.str "init") "ENGINE_ERROR" ("Failed to load model: " ++ msg)]
    ∧ (TtsBridge.main fs td (.fail msg) modelsT input).1.countP isReadyEv = 0
    ∧ VisionBridge.main fs (.fail msg) modelsV input
      = ([.sendLine (errResp (.str "init") "ENGINE_ERROR" ("Failed to load model: " ++ msg))],
         some 1)
    ∧ outputs (VisionBridge.main fs (.fail msg) modelsV input).1
      = [errResp (.str "init") "ENGINE_ERROR" ("Failed to load model: " ++ msg)]
    ∧ (VisionBridge.main fs (.fail msg) modelsV input).1.countP isReadyEv = 0 :=
  ⟨rfl, rfl, rfl, rfl, rfl, rfl⟩

/-- C8: on every successful startup of either bridge, the first stdout line
is exactly the one-field object with type `ready`, and a ready-shaped line
occurs exactly once in the whole run, whatever the input holds and however
the model behaves.  Being the head of the output list, it precedes every
response produced for an input line. -/
theorem claim8_ready_first (fs : Fs) (td : String)
    (modelsT : Nat → TtsBridge.ModelOutcome)
    (modelsV : Nat → VisionBridge.ModelOutcome) (input : List InputLine) :
    (outputs (TtsBridge.main fs td .ok modelsT input).1).head? = some readyJson
    ∧ (TtsBridge.main fs td .ok modelsT input).1.countP isReadyEv = 1
    ∧ (outputs (VisionBridge.main fs .ok modelsV input).1).head? = some readyJson
    ∧ (VisionBridge.main fs .ok modelsV input).1.countP isReadyEv = 1 := by
  refine ⟨?_, ?_, ?_, ?_⟩
  · simp only [TtsBridge.main]
    cases hp : (TtsBridge.loop fs td modelsT ⟨0, 0⟩ input).2 <;>
      simp [outputs, readyJson]
  · simp only [TtsBridge.main]
    cases hp : (TtsBridge.loop fs td modelsT ⟨0, 0⟩ input).2 <;>
      simp [List.countP_append, List.countP_cons, ttsLoop_no_ready,
        isReadyEv, isReadyJson, isAcquireEv, isReleaseEv, readyJson]
  · simp only [VisionBridge.main]
    cases hp : (VisionBridge.loop fs modelsV ⟨0, 0⟩ input).2 <;>
      simp [outputs, readyJson]
  · simp only [VisionBridge.main]
    cases hp : (VisionBridge.loop fs modelsV ⟨0, 0⟩ input).2 <;>
      simp [List.countP_append, List.countP_cons, visionLoop_no_ready,
        isReadyEv, isReadyJson, readyJson]
/-- C3 counterexample: the claim asserts that in every process execution of
either bridge a temp directory is acquired exactly once and released
exactly once, on both the successful-serving path and the
initialization-failure path.  The vision bridge acquires none at all (zero
acquire events in a successful empty-input run), and the TTS bridge on the
initialization-failure path never releases (zero release events). -/
theorem claim3_counterexample :
    (VisionBridge.main fs0 .ok mV0 []).1.countP isAcquireEv = 0
    ∧ (VisionBridge.main fs0 .ok mV0 []).1.countP isReleaseEv = 0
    ∧ (TtsBridge.main fs0 "/tmp/t" (.fail "boom") mT0 []).1.countP isReleaseEv = 0
    ∧ (TtsBridge.main fs0 "/tmp/t" (.fail "boom") mT0 []).2 = some 1 :=
  ⟨rfl, rfl, rfl, rfl⟩

/-- C3 as amended: only the TTS bridge owns a temporary directory.  It is
acquired exactly once, as the very first action of initialization (on the
successful path and on the initialization-failure path alike); it is
released exactly once, as the very last action, exactly on the runs that
terminate with exit code 0 (serving completed or drained); on the
initialization-failure path and on a dispatch-loop crash it is never
released.  The vision bridge acquires and releases nothing. -/
theorem claim3_amended (fs : Fs) (td : String) (init : InitOutcome)
    (modelsT : Nat → TtsBridge.ModelOutcome)
    (modelsV : Nat → VisionBridge.ModelOutcome) (input : List InputLine) :
    (TtsBridge.main fs td init modelsT input).1.countP isAcquireEv = 1
    ∧ (TtsBridge.main fs td init modelsT input).1.head? = some Event.acquireTempDir
    ∧ (TtsBridge.main fs td init modelsT input).1.countP isReleaseEv
        = (if (TtsBridge.main fs td init modelsT input).2 = some 0 then 1 else 0)
    ∧ ((TtsBridge.main fs td init modelsT input).2 = some 0 →
        ∃ pre, (TtsBridge.main fs td init modelsT input).1 = pre ++ [Event.releaseTempDir])
    ∧ (VisionBridge.main fs init modelsV input).1.countP isAcquireEv = 0
    ∧ (VisionBridge.main fs init modelsV input).1.countP isReleaseEv = 0 := by
  cases init with
  | fail msg =>
    exact ⟨rfl, rfl, rfl, fun h => by simp [TtsBridge.main] at h, rfl, rfl⟩
  | ok =>
    rcases hL : TtsBridge.loop fs td modelsT ⟨0, 0⟩ input with ⟨evs, en⟩
    have hrel := ttsLoop_no_release fs td modelsT input ⟨0, 0⟩
    have hacq := ttsLoop_no_acquire fs td modelsT input ⟨0, 0⟩
    rw [hL] at hrel hacq
    simp only at hrel hacq
    rcases hLV : VisionBridge.loop fs modelsV ⟨0, 0⟩ input with ⟨evsV, enV⟩
    have hrelV := visionLoop_no_release fs modelsV input ⟨0, 0⟩
    have hacqV := visionLoop_no_acquire fs modelsV input ⟨0, 0⟩
    rw [hLV] at hrelV hacqV
    simp only at hrelV hacqV
    refine ⟨?_, ?_, ?_, ?_, ?_, ?_⟩
    · simp only [TtsBridge.main, hL]
      cases en <;>
        simp [List.countP_append, List.countP_cons, hacq, isAcquireEv]
    · simp only [TtsBridge.main, hL]
      cases en <;> rfl
    · simp only [TtsBridge.main, hL]
      cases en <;>
        simp [List.countP_append, List.countP_cons, hrel, isReleaseEv]
    · simp only [TtsBridge.main, hL]
      cases en with
      | finished =>
        exact fun _ => ⟨[.acquireTempDir, .sendLine readyJson] ++ evs, by simp⟩
      | crashed e => intro h; simp at h
    · simp only [VisionBridge.main, hLV]
      cases enV <;>
        simp [List.countP_append, List.countP_cons, hacqV, isAcquireEv]
    · simp only [VisionBridge.main, hLV]
      cases enV <;>
        simp [List.countP_append, List.countP_cons, hrelV, isReleaseEv]

/-- Witness for C3 as amended: a concrete successful empty-input TTS run
acquires once, ends in a release, and the concrete init-failure run
releases nothing. -/
theorem claim3_amended_witness :
    (TtsBridge.main fs0 "/tmp/t" .ok mT0 []).1.countP isAcquireEv = 1
    ∧ (∃ pre, (TtsBridge.main fs0 "/tmp/t" .ok mT0 []).1 = pre ++ [Event.releaseTempDir])
    ∧ (TtsBridge.main fs0 "/tmp/t" (.fail "boom") mT0 []).1.countP isReleaseEv
        = (if (TtsBridge.main fs0 "/tmp/t" (.fail "boom") mT0 []).2 = some 0 then 1 else 0) :=
  ⟨(claim3_amended fs0 "/tmp/t" .ok mT0 mV0 []).1,
   (claim3_amended fs0 "/tmp/t" .ok mT0 mV0 []).2.2.2.1 rfl,
   (claim3_amended fs0 "/tmp/t" (.fail "boom") mT0 mV0 []).2.2.1⟩
/-- C1 counterexample: a non-empty, non-shutdown input line that parses as
JSON but is not an object (here the number 42) is not turned into an error
response: `request.get("type")` raises an uncaught `AttributeError`, zero
response lines are emitted for the line, and the whole process aborts
(exit `none`), with the cleanup never reached. -/
theorem claim1_counterexample :
    isShutdownJson (Json.num 42) = false
    ∧ TtsBridge.step fs0 "/tmp/t" mT0 ⟨0, 0⟩ (.parsed (Json.num 42))
        = .crash .attributeError
    ∧ TtsBridge.main fs0 "/tmp/t" .ok mT0 [.parsed (Json.num 42)]
        = ([.acquireTempDir, .sendLine readyJson], none)
    ∧ VisionBridge.step fs0 mV0 ⟨0, 0⟩ (.parsed (Json.num 42))
        = .crash .attributeError :=
  ⟨rfl, rfl, rfl, rfl⟩

/-- C1 as amended: for a non-empty, non-shutdown input line, handling
either emits exactly one response line and continues, or raises an
uncaught exception that crashes the dispatch loop (emitting nothing).
A JSON decode failure is always caught and answered with exactly one
INVALID_REQUEST response; but a line that decodes to a non-object JSON
value always crashes with an `AttributeError`, and object requests whose
fields have types that break the unguarded pre-invocation code crash as
well.  Holds for both bridges. -/
theorem claim1_amended :
    (∀ (fs : Fs) (td : String) (models : Nat → TtsBridge.ModelOutcome)
       (st : BridgeSt) (msg : String),
       TtsBridge.step fs td models st (.malformed msg)
         = .cont [.sendLine (errNoId "INVALID_REQUEST" ("Invalid JSON: " ++ msg))] st)
    ∧ (∀ (fs : Fs) (td : String) (models : Nat → TtsBridge.ModelOutcome)
         (st : BridgeSt) (j : Json), isShutdownJson j = false →
       (∃ r st', TtsBridge.step fs td models st (.parsed j)
           = .cont [Event.sendLine r] st')
       ∨ (∃ e, TtsBridge.step fs td models st (.parsed j) = .crash e))
    ∧ (∀ (fs : Fs) (td : String) (models : Nat → TtsBridge.ModelOutcome)
         (st : BridgeSt) (j : Json), j.isObj = false →
       TtsBridge.step fs td models st (.parsed j) = .crash .attributeError)
    ∧ (∀ (fs : Fs) (models : Nat → VisionBridge.ModelOutcome)
         (st : BridgeSt) (msg : String),
       VisionBridge.step fs models st (.malformed msg)
         = .cont [.sendLine (errNoId "INVALID_REQUEST" ("Invalid JSON: " ++ msg))] st)
    ∧ (∀ (fs : Fs) (models : Nat → VisionBridge.ModelOutcome)
         (st : BridgeSt) (j : Json), isShutdownJson j = false →
       (∃ r st', VisionBridge.step fs models st (.parsed j)
           = .cont [Event.sendLine r] st')
       ∨ (∃ e, VisionBridge.step fs models st (.parsed j) = .crash e))
    ∧ (∀ (fs : Fs) (models : Nat → VisionBridge.ModelOutcome)
         (st : BridgeSt) (j : Json), j.isObj = false →
       VisionBridge.step fs models st (.parsed j) = .crash .attributeError) := by
  refine ⟨fun _ _ _ _ _ => rfl, ?_, ?_, fun _ _ _ _ => rfl, ?_, ?_⟩
  · intro fs td models st j hj
    unfold isShutdownJson at hj
    simp only [TtsBridge.step]
    cases hd : dictGet j "type" with
    | error e => exact Or.inr ⟨e, rfl⟩
    | ok t =>
      rw [hd] at hj; simp only at hj
      simp only [hj, if_false, Bool.false_eq_true]
      split
      · rcases hg : TtsBridge.generate fs td models st j with e | ⟨r, st'⟩
        · exact Or.inr ⟨e, rfl⟩
        · exact Or.inl ⟨r, st', rfl⟩
      · exact Or.inl ⟨_, st, rfl⟩
  · intro fs td models st j hj
    cases j <;> simp [Json.isObj] at hj <;> rfl
  · intro fs models st j hj
    unfold isShutdownJson at hj
    simp only [VisionBridge.step]
    cases hd : dictGet j "type" with
    | error e => exact Or.inr ⟨e, rfl⟩
    | ok t =>
      rw [hd] at hj; simp only at hj
      simp only [hj, if_false, Bool.false_eq_true]
      split
      · rcases hg : VisionBridge.caption fs models st j with e | ⟨r, st'⟩
        · exact Or.inr ⟨e, rfl⟩
        · exact Or.inl ⟨r, st', rfl⟩
      · exact Or.inl ⟨_, st, rfl⟩
  · intro fs models st j hj
    cases j <;> simp [Json.isObj] at hj <;> rfl

/-- Witness for C1 as amended, at concrete lines: a malformed line yields
exactly one error response, and the non-object line `true` crashes. -/
theorem claim1_amended_witness :
    TtsBridge.step fs0 "/tmp/t" mT0 ⟨0, 0⟩ (.malformed "boom")
      = .cont [.sendLine (errNoId "INVALID_REQUEST" "Invalid JSON: boom")] ⟨0, 0⟩
    ∧ TtsBridge.step fs0 "/tmp/t" mT0 ⟨0, 0⟩ (.parsed (Json.bool true))
        = .crash .attributeError
    ∧ VisionBridge.step fs0 mV0 ⟨0, 0⟩ (.parsed (Json.bool true))
        = .crash .attributeError :=
  ⟨claim1_amended.1 fs0 "/tmp/t" mT0 ⟨0, 0⟩ "boom",
   claim1_amended.2.2.1 fs0 "/tmp/t" mT0 ⟨0, 0⟩ (Json.bool true) rfl,
   claim1_amended.2.2.2.2.2 fs0 mV0 ⟨0, 0⟩ (Json.bool true) rfl⟩
/-- C2 counterexample: a request that supplies an id but has an unknown
type discriminator is answered by the loop-level error built at the end of
the dispatch chain, which carries no id field at all — so its response does
not carry the request id `r9`. -/
theorem claim2_counterexample :
    TtsBridge.step fs0 "/tmp/t" mT0 ⟨0, 0⟩
        (.parsed (.obj [("type", .str "bogus"), ("id", .str "r9")]))
      = .cont [.sendLine (errNoId "INVALID_REQUEST" "Unknown request type: bogus")] ⟨0, 0⟩
    ∧ jsonLookup (errNoId "INVALID_REQUEST" "Unknown request type: bogus") "id" = none
    ∧ jsonLookup (Json.obj [("type", .str "bogus"), ("id", .str "r9")]) "id"
        = some (.str "r9") :=
  ⟨rfl, rfl, rfl⟩

/-- C2 as amended: every response that `generate` or `caption` returns —
validation error, model-failure error, or success — carries the id the
request supplied; but the loop-level responses for malformed lines and for
requests with an unknown or missing type discriminator omit the id
entirely, even when the request supplied one. -/
theorem claim2_amended :
    (∀ (fs : Fs) (td : String) (models : Nat → TtsBridge.ModelOutcome)
       (st : BridgeSt) (kvs : List (String × Json)) (idv resp : Json) (st' : BridgeSt),
       kvs.lookup "id" = some idv →
       TtsBridge.generate fs td models st (.obj kvs) = .ok (resp, st') →
       jsonLookup resp "id" = some idv)
    ∧ (∀ (fs : Fs) (models : Nat → VisionBridge.ModelOutcome)
         (st : BridgeSt) (kvs : List (String × Json)) (idv resp : Json) (st' : BridgeSt),
       kvs.lookup "id" = some idv →
       VisionBridge.caption fs models st (.obj kvs) = .ok (resp, st') →
       jsonLookup resp "id" = some idv)
    ∧ (∀ (fs : Fs) (td : String) (models : Nat → TtsBridge.ModelOutcome)
         (st : BridgeSt) (kvs : List (String × Json)) (rt : Json),
       kvs.lookup "type" = some rt → jsonEqStr rt "shutdown" = false →
       jsonEqStr rt "generate" = false →
       TtsBridge.step fs td models st (.parsed (.obj kvs))
         = .cont [.sendLine (errNoId "INVALID_REQUEST"
             ("Unknown request type: " ++ pyStr rt))] st
       ∧ jsonLookup (errNoId "INVALID_REQUEST" ("Unknown request type: " ++ pyStr rt)) "id"
           = none) := by
  refine ⟨?_, ?_, ?_⟩
  · intro fs td models st kvs idv resp st' hid h
    simp only [TtsBridge.generate, hid, Option.getD_some] at h
    (repeat' split at h) <;> (try simp_all) <;>
      (rcases h with ⟨h1, h2⟩; subst h1; rfl)
  · intro fs models st kvs idv resp st' hid h
    simp only [VisionBridge.caption, hid, Option.getD_some] at h
    (repeat' split at h) <;> (try simp_all) <;>
      (rcases h with ⟨h1, h2⟩; subst h1; rfl)
  · intro fs td models st kvs rt hrt h1 h2
    refine ⟨?_, rfl⟩
    simp only [TtsBridge.step, dictGet, hrt, Option.getD_some, h1, h2]
    simp [h1, h2]

/-- Witness for C2 as amended, at a concrete voice-sample-missing request
and a concrete unknown-type request. -/
theorem claim2_amended_witness :
    jsonLookup (errResp (.str "r1") "VOICE_NOT_FOUND" "Voice sample not found: /v.wav") "id"
      = some (.str "r1")
    ∧ jsonLookup (errNoId "INVALID_REQUEST" "Unknown request type: bogus") "id" = none :=
  ⟨claim2_amended.1 fs0 "/tmp/t" mT0 ⟨0, 0⟩
      [("type", .str "generate"), ("id", .str "r1"), ("text", .str "hi"),
       ("voice_sample", .str "/v.wav")]
      (.str "r1")
      (errResp (.str "r1") "VOICE_NOT_FOUND" "Voice sample not found: /v.wav")
      ⟨0, 0⟩ rfl rfl,
   (claim2_amended.2.2 fs0 "/tmp/t" mT0 ⟨0, 0⟩
      [("type", .str "bogus"), ("id", .str "r9")] (.str "bogus") rfl rfl rfl).2⟩
/-- C4 counterexample: the claim says the OUT_OF_MEMORY/ENGINE_ERROR split
depends only on whether the failure message contains the indicator,
regardless of the failure kind.  But the bridges test the message only in
the `except RuntimeError` clause: a non-RuntimeError failure whose message
does contain `out of memory` is still reported as ENGINE_ERROR. -/
theorem claim4_counterexample :
    containsOOM "CUDA out of memory" = true
    ∧ TtsBridge.generate fs0 "/tmp/t" (fun _ => .failOther "CUDA out of memory") ⟨0, 0⟩
        (.obj [("type", .str "generate"), ("id", .str "r1"), ("text", .str "hi")])
      = .ok (errResp (.str "r1") "ENGINE_ERROR" "CUDA out of memory", ⟨0, 1⟩)
    ∧ VisionBridge.caption fsAll (fun _ => .failOther "CUDA out of memory") ⟨0, 0⟩
        (.obj [("type", .str "caption"), ("id", .str "r2"), ("image_path", .str "/i.png")])
      = .ok (errResp (.str "r2") "ENGINE_ERROR" "CUDA out of memory", ⟨0, 1⟩) :=
  ⟨rfl, rfl, rfl⟩

/-- C4 as amended: for a validated request, a model-capability failure
signalled as a RuntimeError is classified by its message — OUT_OF_MEMORY
when the lowered message contains `out of memory`, ENGINE_ERROR with the
underlying message otherwise — while a failure of any other kind is always
ENGINE_ERROR with the underlying message, even when it contains the
indicator; in every case the dispatch step continues the loop with exactly
that one response.  Holds for both bridges. -/
theorem claim4_amended (fs : Fs) (td : String) (st : BridgeSt)
    (modelsT : Nat → TtsBridge.ModelOutcome)
    (modelsV : Nat → VisionBridge.ModelOutcome)
    (idv text path msg : String)
    (htext : text ≠ "") (hlen : text.length ≤ 10000)
    (hpath : fs.pathExists path = true) (hpne : path ≠ "") :
    (modelsT st.calls = .failRuntime msg →
       TtsBridge.step fs td modelsT st
           (.parsed (.obj [("type", .str "generate"), ("id", .str idv), ("text", .str text)]))
         = .cont [.sendLine (errResp (.str idv)
             (if containsOOM msg then "OUT_OF_MEMORY" else "ENGINE_ERROR") msg)]
             ⟨st.requestCounter, st.calls + 1⟩)
    ∧ (modelsT st.calls = .failOther msg →
       TtsBridge.step fs td modelsT st
           (.parsed (.obj [("type", .str "generate"), ("id", .str idv), ("text", .str text)]))
         = .cont [.sendLine (errResp (.str idv) "ENGINE_ERROR" msg)]
             ⟨st.requestCounter, st.calls + 1⟩)
    ∧ (modelsV st.calls = .failRuntime msg →
       VisionBridge.step fs modelsV st
           (.parsed (.obj [("type", .str "caption"), ("id", .str idv), ("image_path", .str path)]))
         = .cont [.sendLine (errResp (.str idv)
             (if containsOOM msg then "OUT_OF_MEMORY" else "ENGINE_ERROR") msg)]
             ⟨st.requestCounter, st.calls + 1⟩)
    ∧ (modelsV st.calls = .failOther msg →
       VisionBridge.step fs modelsV st
           (.parsed (.obj [("type", .str "caption"), ("id", .str idv), ("image_path", .str path)]))
         = .cont [.sendLine (errResp (.str idv) "ENGINE_ERROR" msg)]
             ⟨st.requestCounter, st.calls + 1⟩) := by
  have het : text.isEmpty = false := by
    cases h : text.isEmpty
    · rfl
    · exact absurd ((String.isEmpty_iff text).mp h) htext
  have hep : path.isEmpty = false := by
    cases h : path.isEmpty
    · rfl
    · exact absurd ((String.isEmpty_iff path).mp h) hpne
  refine ⟨?_, ?_, ?_, ?_⟩
  · intro hm
    by_cases hc : containsOOM msg <;>
      simp [TtsBridge.step, TtsBridge.generate, dictGet, List.lookup, jsonEqStr,
        pyLen, Json.truthy, het, hm, hc, Nat.not_lt.mpr hlen]
  · intro hm
    simp [TtsBridge.step, TtsBridge.generate, dictGet, List.lookup, jsonEqStr,
      pyLen, Json.truthy, het, hm, Nat.not_lt.mpr hlen]
  · intro hm
    by_cases hc : containsOOM msg <;>
      simp [VisionBridge.step, VisionBridge.caption, dictGet, List.lookup, jsonEqStr,
        os_path_exists, Json.truthy, hep, hm, hc, hpath]
  · intro hm
    simp [VisionBridge.step, VisionBridge.caption, dictGet, List.lookup, jsonEqStr,
      os_path_exists, Json.truthy, hep, hm, hpath]

/-- Witness for C4 as amended at concrete requests: a RuntimeError whose
message contains the indicator is reported OUT_OF_MEMORY in the TTS bridge,
and a RuntimeError without the indicator is reported ENGINE_ERROR in the
vision bridge. -/
theorem claim4_amended_witness :
    TtsBridge.step fsAll "/tmp/t" (fun _ => .failRuntime "CUDA out of memory") ⟨0, 0⟩
        (.parsed (.obj [("type", .str "generate"), ("id", .str "r1"), ("text", .str "hi")]))
      = .cont [.sendLine (errResp (.str "r1")
          (if containsOOM "CUDA out of memory" then "OUT_OF_MEMORY" else "ENGINE_ERROR")
          "CUDA out of memory")] ⟨0, 1⟩
    ∧ VisionBridge.step fsAll (fun _ => .failRuntime "kernel panic") ⟨0, 0⟩
        (.parsed (.obj [("type", .str "caption"), ("id", .str "r2"), ("image_path", .str "/i.png")]))
      = .cont [.sendLine (errResp (.str "r2")
          (if containsOOM "kernel panic" then "OUT_OF_MEMORY" else "ENGINE_ERROR")
          "kernel panic")] ⟨0, 1⟩ :=
  ⟨(claim4_amended fsAll "/tmp/t" ⟨0, 0⟩ (fun _ => .failRuntime "CUDA out of memory")
      mV0 "r1" "hi" "/i.png" "CUDA out of memory"
      (by decide) (by decide) rfl (by decide)).1 rfl,
   (claim4_amended fsAll "/tmp/t" ⟨0, 0⟩ mT0
      (fun _ => .failRuntime "kernel panic") "r2" "hi" "/i.png" "kernel panic"
      (by decide) (by decide) rfl (by decide)).2.2.1 rfl⟩
/-- C5: validation of a generate request applies its rules in order with
the first failing rule winning.  Empty text yields INVALID_TEXT with
message `Text is empty` whatever else the request holds; non-empty text
longer than 10000 characters yields the too-long INVALID_TEXT message
(so text of exactly 10000 characters passes this rule); a supplied
non-empty voice-sample path that does not exist yields VOICE_NOT_FOUND;
and a request passing all three rules proceeds to model invocation (the
try body runs and the oracle index advances by one, whatever the model
outcome is). -/
theorem claim5_generate_validation (fs : Fs) (td : String)
    (models : Nat → TtsBridge.ModelOutcome) (st : BridgeSt) (idv text : String)
    (vs : Option String) :
    (text = "" →
       TtsBridge.generate fs td models st (genReqJson idv text vs)
         = .ok (errResp (.str idv) "INVALID_TEXT" "Text is empty", st))
    ∧ (text ≠ "" → 10000 < text.length →
       TtsBridge.generate fs td models st (genReqJson idv text vs)
         = .ok (errResp (.str idv) "INVALID_TEXT" "Text too long (max 10000 chars)", st))
    ∧ (∀ s, text ≠ "" → text.length ≤ 10000 → vs = some s → s ≠ "" →
        fs.pathExists s = false →
       TtsBridge.generate fs td models st (genReqJson idv text vs)
         = .ok (errResp (.str idv) "VOICE_NOT_FOUND" ("Voice sample not found: " ++ s), st))
    ∧ (text ≠ "" → text.length ≤ 10000 →
       (vs = none ∨ ∃ s, vs = some s ∧ (s = "" ∨ fs.pathExists s = true)) →
       Except.map (fun p => p.2.calls)
           (TtsBridge.generate fs td models st (genReqJson idv text vs))
         = .ok (st.calls + 1)) := by
  refine ⟨?_, ?_, ?_, ?_⟩
  · intro h
    subst h
    rfl
  · intro htext hlen
    have het : text.isEmpty = false := by
      cases h : text.isEmpty
      · rfl
      · exact absurd ((String.isEmpty_iff text).mp h) htext
    simp [genReqJson, TtsBridge.generate, List.lookup, Json.truthy, pyLen, het, hlen]
  · intro s htext hlen hvs hs hfs
    subst hvs
    have het : text.isEmpty = false := by
      cases h : text.isEmpty
      · rfl
      · exact absurd ((String.isEmpty_iff text).mp h) htext
    have hes : s.isEmpty = false := by
      cases h : s.isEmpty
      · rfl
      · exact absurd ((String.isEmpty_iff s).mp h) hs
    simp [genReqJson, TtsBridge.generate, List.lookup, Json.truthy, pyLen, het, hes,
      Nat.not_lt.mpr hlen, os_path_exists, hfs, Except.map, pyStr, pyStrJ]
  · intro htext hlen hvs
    have het : text.isEmpty = false := by
      cases h : text.isEmpty
      · rfl
      · exact absurd ((String.isEmpty_iff text).mp h) htext
    rcases hvs with rfl | ⟨s, rfl, hs⟩
    · rcases hm : models st.calls with d | m | m
      · simp [genReqJson, TtsBridge.generate, List.lookup, Json.truthy, pyLen, het,
          Nat.not_lt.mpr hlen, Except.map, hm]
      · by_cases hc : containsOOM m <;>
          simp [genReqJson, TtsBridge.generate, List.lookup, Json.truthy, pyLen, het,
            Nat.not_lt.mpr hlen, Except.map, hm, hc]
      · simp [genReqJson, TtsBridge.generate, List.lookup, Json.truthy, pyLen, het,
          Nat.not_lt.mpr hlen, Except.map, hm]
    · rcases hs with rfl | hex
      · rcases hm : models st.calls with d | m | m
        · simp [genReqJson, TtsBridge.generate, List.lookup, Json.truthy, pyLen, het,
            Nat.not_lt.mpr hlen, Except.map, hm, show String.isEmpty "" = true from rfl]
        · by_cases hc : containsOOM m <;>
            simp [genReqJson, TtsBridge.generate, List.lookup, Json.truthy, pyLen, het,
              Nat.not_lt.mpr hlen, Except.map, hm, hc, show String.isEmpty "" = true from rfl]
        · simp [genReqJson, TtsBridge.generate, List.lookup, Json.truthy, pyLen, het,
            Nat.not_lt.mpr hlen, Except.map, hm, show String.isEmpty "" = true from rfl]
      · by_cases hse : s.isEmpty = true
        · rcases hm : models st.calls with d | m | m
          · simp [genReqJson, TtsBridge.generate, List.lookup, Json.truthy, pyLen, het,
              Nat.not_lt.mpr hlen, Except.map, hse, hm]
          · by_cases hc : containsOOM m <;>
              simp [genReqJson, TtsBridge.generate, List.lookup, Json.truthy, pyLen, het,
                Nat.not_lt.mpr hlen, Except.map, hse, hm, hc]
          · simp [genReqJson, TtsBridge.generate, List.lookup, Json.truthy, pyLen, het,
              Nat.not_lt.mpr hlen, Except.map, hse, hm]
        · have hse' : s.isEmpty = false := by
            cases h : s.isEmpty
            · rfl
            · exact absurd h hse
          rcases hm : models st.calls with d | m | m
          · simp [genReqJson, TtsBridge.generate, List.lookup, Json.truthy, pyLen, het,
              Nat.not_lt.mpr hlen, Except.map, hse', os_path_exists, hex, hm]
          · by_cases hc : containsOOM m <;>
              simp [genReqJson, TtsBridge.generate, List.lookup, Json.truthy, pyLen, het,
                Nat.not_lt.mpr hlen, Except.map, hse', os_path_exists, hex, hm, hc]
          · simp [genReqJson, TtsBridge.generate, List.lookup, Json.truthy, pyLen, het,
              Nat.not_lt.mpr hlen, Except.map, hse', os_path_exists, hex, hm]

/-- Witness for C5 at concrete requests: a missing voice sample is
reported, and the all-rules-pass request reaches the model. -/
theorem claim5_witness :
    TtsBridge.generate fs0 "/tmp/t" mT0 ⟨0, 0⟩ (genReqJson "r1" "hi" (some "/v.wav"))
      = .ok (errResp (.str "r1") "VOICE_NOT_FOUND" "Voice sample not found: /v.wav", ⟨0, 0⟩)
    ∧ Except.map (fun p => p.2.calls)
        (TtsBridge.generate fs0 "/tmp/t" mT0 ⟨0, 0⟩ (genReqJson "r1" "hi" none))
        = .ok (0 + 1) :=
  ⟨(claim5_generate_validation fs0 "/tmp/t" mT0 ⟨0, 0⟩ "r1" "hi" (some "/v.wav")).2.2.1
      "/v.wav" (by decide) (by decide) rfl (by decide) rfl,
   (claim5_generate_validation fs0 "/tmp/t" mT0 ⟨0, 0⟩ "r1" "hi" none).2.2.2
      (by decide) (by decide) (Or.inl rfl)⟩
/-- C6: for a caption request, a missing `image_path` yields
INVALID_REQUEST with message `image_path is required`, for every
filesystem — so the missing-path check precedes (and never consults) the
existence check; a supplied non-empty path that does not exist yields
IMAGE_NOT_FOUND with message `Image not found: <path>`; and a request
without context fields behaves exactly like one with the explicit
defaults position `middle` and image index 0. -/
theorem claim6_caption_validation (fs : Fs)
    (models : Nat → VisionBridge.ModelOutcome) (st : BridgeSt) (idv : String) :
    (VisionBridge.caption fs models st (capReqJson idv none none)
       = .ok (errResp (.str idv) "INVALID_REQUEST" "image_path is required", st))
    ∧ (∀ p : String, p ≠ "" → fs.pathExists p = false →
       VisionBridge.caption fs models st (capReqJson idv (some (.str p)) none)
         = .ok (errResp (.str idv) "IMAGE_NOT_FOUND" ("Image not found: " ++ p), st))
    ∧ (∀ p : String,
       VisionBridge.caption fs models st (capReqJson idv (some (.str p)) none)
         = VisionBridge.caption fs models st (capReqJson idv (some (.str p))
             (some (.obj [("position", .str "middle"), ("image_index", .num 0)])))
       ∧ VisionBridge.caption fs models st (capReqJson idv (some (.str p))
             (some (.obj [])))
         = VisionBridge.caption fs models st (capReqJson idv (some (.str p))
             (some (.obj [("position", .str "middle"), ("image_index", .num 0)])))) := by
  refine ⟨rfl, ?_, fun p => ⟨rfl, rfl⟩⟩
  intro p hp hfs
  have hep : p.isEmpty = false := by
    cases h : p.isEmpty
    · rfl
    · exact absurd ((String.isEmpty_iff p).mp h) hp
  simp [capReqJson, VisionBridge.caption, List.lookup, Json.truthy, hep,
    os_path_exists, hfs, pyStr, pyStrJ]

/-- Witness for C6 at the spec scenario: captioning `/missing.png` on an
empty filesystem reports IMAGE_NOT_FOUND with the exact message. -/
theorem claim6_witness :
    VisionBridge.caption fs0 mV0 ⟨0, 0⟩ (capReqJson "r2" (some (.str "/missing.png")) none)
      = .ok (errResp (.str "r2") "IMAGE_NOT_FOUND" "Image not found: /missing.png", ⟨0, 0⟩) :=
  (claim6_caption_validation fs0 mV0 ⟨0, 0⟩ "r2").2.1 "/missing.png" (by decide) rfl
/-- C10: every successful caption response carries exactly
`<prefix>: <model description>`, where the prefix is as the claim words it
(`claimedPfx`): ordinal words First..Tenth for image indices 0..9 and
`Image (i+1)` for larger ones, `on the page` for an unrecognized position
string, and the `on page N` mention present exactly when the supplied page
number is truthy — absent or zero omits it.  The request counter and the
oracle index both advance by one. -/
theorem claim10_caption_format (fs : Fs)
    (models : Nat → VisionBridge.ModelOutcome) (st : BridgeSt)
    (idv path p : String) (i : Int) (pn : Option Int) (desc : String)
    (hfs : fs.pathExists path = true) (hpne : path ≠ "") (hi : 0 ≤ i)
    (hm : models st.calls = .success desc) :
    VisionBridge.caption fs models st
        (.obj [("type", .str "caption"), ("id", .str idv),
               ("image_path", .str path), ("context", ctxOf p i pn)])
      = .ok (.obj [("type", .str "caption"), ("id", .str idv),
                   ("caption", .str (claimedPfx p i pn ++ ": " ++ desc))],
             ⟨st.requestCounter + 1, st.calls + 1⟩) := by
  have hep : path.isEmpty = false := by
    cases h : path.isEmpty
    · rfl
    · exact absurd ((String.isEmpty_iff path).mp h) hpne
  cases pn with
  | none =>
    by_cases hlt : i < 10 <;>
      simp [ctxOf, VisionBridge.caption, List.lookup, Json.truthy, hep,
        os_path_exists, hfs, hm, VisionBridge.format_position,
        VisionBridge.posMapGet, VisionBridge.pyIntOf, VisionBridge.pyListIndex,
        VisionBridge.ordinals, claimedPfx, pyStr, pyStrJ, hi, hlt]
  | some n =>
    by_cases hlt : i < 10 <;> by_cases hn : n = 0 <;>
      simp [ctxOf, VisionBridge.caption, List.lookup, Json.truthy, hep,
        os_path_exists, hfs, hm, VisionBridge.format_position,
        VisionBridge.posMapGet, VisionBridge.pyIntOf, VisionBridge.pyListIndex,
        VisionBridge.ordinals, claimedPfx, pyStr, pyStrJ, hi, hlt, hn,
        bne_iff_ne]

/-- Witness for C10 at a concrete request: third image, recognized position
`top`, page 87, successful model description. -/
theorem claim10_witness :
    VisionBridge.caption fsAll mVs ⟨0, 0⟩
        (.obj [("type", .str "caption"), ("id", .str "r7"),
               ("image_path", .str "/i.png"), ("context", ctxOf "top" 2 (some 87))])
      = .ok (.obj [("type", .str "caption"), ("id", .str "r7"),
                   ("caption", .str (claimedPfx "top" 2 (some 87) ++ ": " ++ "a chart"))],
             ⟨1, 1⟩) :=
  claim10_caption_format fsAll mVs ⟨0, 0⟩ "r7" "/i.png" "top" 2 (some 87) "a chart"
    rfl (by decide) (by decide) rfl
